import Mathlib

/-! Terminal settings surfaces: the About dialog and the Profiles page.

A shallow embedding of `src/cascadia/TerminalApp/AboutDialog.cpp` and
`src/cascadia/TerminalSettingsEditor/Profiles.cpp`.

Conventions of the embedding.

* `winrt::hstring` is `String`; `empty()` is `String.isEmpty`.
* A `std::chrono::system_clock::time_point` is its tick count, an `Int`.
  Clock readings are far from the bounds of the 64-bit representation, and
  signed overflow is undefined in C++, so durations are exact differences.
* Every member function is a function on the record of the object's fields.
  Raising the `PropertyChanged` event appends the property name to a log kept
  in the record, and a query sent to the store increments a counter there, so
  that "nothing is raised" and "no query is made" are statements about the
  record.
* A coroutine is run from its first statement to its last, with no other
  handler of the dialog running in between.  `co_await
  wil::resume_foreground(...)` and `co_await winrt::resume_after(...)` move the
  continuation to another thread or time; they touch none of the fields, they
  are taken to succeed, and the continuation follows them directly.  What the
  store answers (or that it throws) is read from an `Environment` record.
* `_QueueUpdateCheckThrowing` is the same coroutine with every statement of the
  `try` block allowed to throw: a thread hop, a call on the update list, the
  formatting, and each of the two notifications raised inside
  `_SetPendingUpdateVersion`.  Which of them throw is a second input.  With
  none of them throwing it is `_QueueUpdateCheck`.
* `try { ... } catch (...) { }` is a block returning how it completed together
  with the fields as they are at that moment; the handler discards the former.
-/

namespace TerminalApp

/-! ## AboutDialog.cpp -/

/-- How a block of statements completes: by reaching its end or by throwing. -/
inductive Completion where
  | normal
  | threw
  deriving DecidableEq, Repr

/-- The two compilations of `_QueueUpdateCheck`: with `WT_BRANDING_DEV` defined
and without. -/
inductive Branding where
  | Dev
  | Release
  deriving DecidableEq, Repr

/-- The value of `Package().Id().Version()`, a `Windows::ApplicationModel::PackageVersion`:
four unsigned 16-bit components. -/
structure PackageVersion where
  Major : Nat
  Minor : Nat
  Build : Nat
  Revision : Nat
  deriving DecidableEq, Repr

/-- What one call of `_QueueUpdateCheck` reads from outside the dialog. -/
structure Environment where
  /-- The reading `std::chrono::system_clock::now()` of line 82, in ticks. -/
  now : Int
  /-- The value of `IsPackaged()` at line 89. -/
  IsPackaged : Bool
  /-- Whether the translation unit was compiled with `WT_BRANDING_DEV`. -/
  branding : Branding
  /-- The outcome of lines 107 and 108, `StoreContext::GetDefault()` followed by
  `co_await storeContext.GetAppAndOptionalStorePackageUpdatesAsync()`: either
  an exception, or the list of updates, each given by the package version it
  carries. -/
  storeQuery : Except Unit (List PackageVersion)
  /-- The names the generated setter `CheckingForUpdates(value)` raises on
  `PropertyChanged`, from the stored and the new value.  The setter is
  declared in `AboutDialog.h`. -/
  checkingRaises : Bool → Bool → List String

/-- The fields of `AboutDialog` that the file reads or writes, with the two
logs of the embedding. -/
structure AboutDialog where
  _pendingUpdateVersion : String
  _lastUpdateCheck : Int
  _CheckingForUpdates : Bool
  /-- Names raised on `_PropertyChangedHandlers`, oldest first. -/
  raised : List String
  /-- Number of times the store was consulted (line 107 reached). -/
  storeQueries : Nat
  deriving DecidableEq, Repr

/-- The duration `std::chrono::days{ n }` in ticks of `system_clock`
(100 ns each). -/
def days (n : Int) : Int := n * 864000000000

/-- The call `_PropertyChangedHandlers(*this, PropertyChangedEventArgs{ name })`. -/
def _PropertyChangedHandlers (name : String) (d : AboutDialog) : AboutDialog :=
  { d with raised := d.raised ++ [name] }

/-- Lines 62-65. -/
def UpdatesAvailable (d : AboutDialog) : Bool :=
  !d._pendingUpdateVersion.isEmpty

/-- Lines 67-70. -/
def PendingUpdateVersion (d : AboutDialog) : String :=
  d._pendingUpdateVersion

/-- Lines 72-77. -/
def _SetPendingUpdateVersion (version : String) (d : AboutDialog) : AboutDialog :=
  let d := { d with _pendingUpdateVersion := version }
  let d := _PropertyChangedHandlers "PendingUpdateVersion" d
  _PropertyChangedHandlers "UpdatesAvailable" d

/-- The getter `CheckingForUpdates()`. -/
def CheckingForUpdates (d : AboutDialog) : Bool :=
  d._CheckingForUpdates

/-- Modelled from the spec: the setter `CheckingForUpdates(value)` is generated
by a declaration in `AboutDialog.h`, which is not among the sources.  It stores
the "checking for updates" flag; the notifications it raises are those the
environment names. -/
def setCheckingForUpdates (env : Environment) (value : Bool) (d : AboutDialog) : AboutDialog :=
  { d with
    _CheckingForUpdates := value
    raised := d.raised ++ env.checkingRaises d._CheckingForUpdates value }

/-- The call `fmt::format(L"{0}.{1}.{2}", a, b, c)` on unsigned integers. -/
def fmt_format (a b c : Nat) : String :=
  Nat.repr a ++ "." ++ Nat.repr b ++ "." ++ Nat.repr c

/-- The body of the `try` block, lines 99-116. -/
def tryBlock (env : Environment) (d : AboutDialog) : Completion × AboutDialog :=
  match env.branding with
  | Branding.Dev =>
    -- resume_after 3 s, resume_foreground
    (Completion.normal, _SetPendingUpdateVersion "X.Y.Z" d)
  | Branding.Release =>
    let d := { d with storeQueries := d.storeQueries + 1 }
    match env.storeQuery with
    | Except.error _ => (Completion.threw, d)
    | Except.ok updates =>
      -- resume_foreground
      if h : updates.length > 0 then
        let version := updates[0]
        (Completion.normal,
          _SetPendingUpdateVersion (fmt_format version.Major version.Minor version.Revision) d)
      else
        (Completion.normal, d)

/-- The handler `catch (...) { }` of lines 117-120: whatever the block did,
control continues after it. -/
def catchAll (r : Completion × AboutDialog) : Completion × AboutDialog :=
  (Completion.normal, r.2)

/-- Lines 79-124.  The result is how the coroutine body completed and the
dialog it leaves. -/
def _QueueUpdateCheck (env : Environment) (d : AboutDialog) : Completion × AboutDialog :=
  let now := env.now
  if now - d._lastUpdateCheck < days 1 then
    (Completion.normal, d)
  else
    let d := { d with _lastUpdateCheck := now }
    if !env.IsPackaged then
      (Completion.normal, d)
    else
      let d := _SetPendingUpdateVersion "" d
      let d := setCheckingForUpdates env true d
      match catchAll (tryBlock env d) with
      | (Completion.threw, d) => (Completion.threw, d)
      | (Completion.normal, d) =>
        (Completion.normal, setCheckingForUpdates env false d)

/-- A sequence of calls of `_QueueUpdateCheck`, one per environment, each on the
dialog the previous one left. -/
def queueAll : List Environment → AboutDialog → AboutDialog
  | [], d => d
  | env :: rest, d => queueAll rest (_QueueUpdateCheck env d).2

/-- The statements inside the `try` block, other than the store query, that
call into the platform or a library and so can throw. -/
inductive TrySite where
  /-- Line 103, `co_await winrt::resume_after(...)`. -/
  | sleep
  /-- Line 104 (development build) or line 109 (release build),
  `co_await wil::resume_foreground(...)`. -/
  | resume
  /-- Line 110, `updates.Size()`. -/
  | size
  /-- Line 112, `updates.GetAt(0).Package().Id().Version()`. -/
  | version
  /-- Line 113, `fmt::format(...)` and the conversion of its result. -/
  | format
  /-- Line 75, reached from line 105 or 113: raising "PendingUpdateVersion". -/
  | raisePending
  /-- Line 76, reached from line 105 or 113: raising "UpdatesAvailable". -/
  | raiseAvailable
  deriving DecidableEq, Repr

/-- Lines 72-77 as called from inside the `try` block, where each of the two
raises may throw; a raise that throws notifies nobody.  The field is written
at line 74, before either of them. -/
def _SetPendingUpdateVersionThrowing (faults : TrySite → Bool) (version : String)
    (d : AboutDialog) : Completion × AboutDialog :=
  let d := { d with _pendingUpdateVersion := version }
  if faults TrySite.raisePending then
    (Completion.threw, d)
  else
    let d := _PropertyChangedHandlers "PendingUpdateVersion" d
    if faults TrySite.raiseAvailable then
      (Completion.threw, d)
    else
      (Completion.normal, _PropertyChangedHandlers "UpdatesAvailable" d)

/-- The body of the `try` block, lines 99-116, where the statement at a site
throws when `faults` says so and the store query throws when the environment
says so.  A statement that throws ends the block with the fields as they are. -/
def tryBlockThrowing (faults : TrySite → Bool) (env : Environment) (d : AboutDialog) :
    Completion × AboutDialog :=
  match env.branding with
  | Branding.Dev =>
    if faults TrySite.sleep then
      (Completion.threw, d)
    else if faults TrySite.resume then
      (Completion.threw, d)
    else
      _SetPendingUpdateVersionThrowing faults "X.Y.Z" d
  | Branding.Release =>
    let d := { d with storeQueries := d.storeQueries + 1 }
    match env.storeQuery with
    | Except.error _ => (Completion.threw, d)
    | Except.ok updates =>
      if faults TrySite.resume then
        (Completion.threw, d)
      else if faults TrySite.size then
        (Completion.threw, d)
      else if h : updates.length > 0 then
        if faults TrySite.version then
          (Completion.threw, d)
        else
          let version := updates[0]
          if faults TrySite.format then
            (Completion.threw, d)
          else
            _SetPendingUpdateVersionThrowing faults
              (fmt_format version.Major version.Minor version.Revision) d
      else
        (Completion.normal, d)

/-- Lines 79-124 with `tryBlockThrowing` for the `try` block; the statements
outside the block are as in `_QueueUpdateCheck`. -/
def _QueueUpdateCheckThrowing (faults : TrySite → Bool) (env : Environment) (d : AboutDialog) :
    Completion × AboutDialog :=
  let now := env.now
  if now - d._lastUpdateCheck < days 1 then
    (Completion.normal, d)
  else
    let d := { d with _lastUpdateCheck := now }
    if !env.IsPackaged then
      (Completion.normal, d)
    else
      let d := _SetPendingUpdateVersion "" d
      let d := setCheckingForUpdates env true d
      match catchAll (tryBlockThrowing faults env d) with
      | (Completion.threw, d) => (Completion.threw, d)
      | (Completion.normal, d) =>
        (Completion.normal, setCheckingForUpdates env false d)

/-- No statement of the `try` block throws. -/
def noFaults : TrySite → Bool := fun _ => false

/-- A setter that raises its own name when the stored value changes. -/
def raisesOnChange (old new : Bool) : List String :=
  if old != new then ["CheckingForUpdates"] else []

/-- A dialog that has never checked for updates: the time of the last check
is the epoch. -/
def freshDialog : AboutDialog :=
  { _pendingUpdateVersion := ""
    _lastUpdateCheck := 0
    _CheckingForUpdates := false
    raised := []
    storeQueries := 0 }

/-- A dialog that found version 1.21.7 at tick 17900000000000000. -/
def checkedDialog : AboutDialog :=
  { _pendingUpdateVersion := "1.21.7"
    _lastUpdateCheck := 17900000000000000
    _CheckingForUpdates := false
    raised := []
    storeQueries := 1 }

/-- A call at tick `now` in a release build inside a package, the store
answering with `answer`. -/
def releaseCall (now : Int) (answer : Except Unit (List PackageVersion)) : Environment :=
  { now := now
    IsPackaged := true
    branding := Branding.Release
    storeQuery := answer
    checkingRaises := raisesOnChange }

/-- A call at tick `now` in a development build inside a package. -/
def devCall (now : Int) : Environment :=
  { now := now
    IsPackaged := true
    branding := Branding.Dev
    storeQuery := Except.ok []
    checkingRaises := raisesOnChange }

/-- A call at tick `now` in a release build outside any package. -/
def unpackagedCall (now : Int) : Environment :=
  { now := now
    IsPackaged := false
    branding := Branding.Release
    storeQuery := Except.ok []
    checkingRaises := raisesOnChange }

end TerminalApp

namespace SettingsEditor

/-! ## Profiles.cpp -/

/-- The value a call of `TermSettings()` on a profile view model returns; the
settings object is built outside these files and only its identity matters
here. -/
structure TerminalSettings where
  id : Nat
  deriving DecidableEq, Repr

/-- The three profile properties that the picker handlers write. -/
inductive ProfileProperty where
  | Icon
  | Commandline
  | StartingDirectory
  deriving DecidableEq, Repr

/-- Modelled from the spec: `ProfileViewModel` belongs to the view-model layer,
which is not among the sources.  It is a record of the properties the page
reads and writes ("open file picker → set property"), with the list of setter
calls it received, oldest first. -/
structure ProfileViewModel where
  Icon : String
  Commandline : String
  StartingDirectory : String
  TermSettings : TerminalSettings
  written : List (ProfileProperty × String)
  deriving DecidableEq, Repr

/-- The setter `Icon(value)` of the view model. -/
def ProfileViewModel.setIcon (value : String) (vm : ProfileViewModel) : ProfileViewModel :=
  { vm with Icon := value, written := vm.written ++ [(ProfileProperty.Icon, value)] }

/-- The setter `Commandline(value)` of the view model. -/
def ProfileViewModel.setCommandline (value : String) (vm : ProfileViewModel) : ProfileViewModel :=
  { vm with Commandline := value, written := vm.written ++ [(ProfileProperty.Commandline, value)] }

/-- The setter `StartingDirectory(value)` of the view model. -/
def ProfileViewModel.setStartingDirectory (value : String) (vm : ProfileViewModel) :
    ProfileViewModel :=
  { vm with
    StartingDirectory := value
    written := vm.written ++ [(ProfileProperty.StartingDirectory, value)] }

/-- The getter of a profile property. -/
def ProfileViewModel.get (vm : ProfileViewModel) : ProfileProperty → String
  | ProfileProperty.Icon => vm.Icon
  | ProfileProperty.Commandline => vm.Commandline
  | ProfileProperty.StartingDirectory => vm.StartingDirectory

/-- The enumeration `ProfilesPivots` is declared in the interface definition of
the editor.  A Windows Runtime enumeration has a 32-bit signed integer as its
underlying type, and a value of the enumeration is that integer. -/
structure ProfilesPivots where
  value : Int
  deriving DecidableEq, Repr

/-- The conversion `static_cast<Editor::ProfilesPivots>(index)`. -/
def static_cast_ProfilesPivots (index : Int) : ProfilesPivots := ⟨index⟩

/-- The conversion `static_cast<int>(pivot)`. -/
def static_cast_int (pivot : ProfilesPivots) : Int := pivot.value

/-- The static members of `ProfileViewModel` that the page uses: the pivot last
selected and whether each of the two font lists exists. -/
structure ProfileViewModelStatics where
  LastActivePivot : ProfilesPivots
  CompleteFontList : Bool
  MonospaceFontList : Bool
  deriving DecidableEq, Repr

/-- The call `ProfileViewModel::UpdateFontList()`: both font lists exist
afterwards. -/
def UpdateFontList (st : ProfileViewModelStatics) : ProfileViewModelStatics :=
  { st with CompleteFontList := true, MonospaceFontList := true }

/-- The parameter of a navigation to the page. -/
structure ProfilePageNavigationState where
  Profile : ProfileViewModel
  deriving DecidableEq, Repr

/-- The preview `TermControl`, as far as the page drives it. -/
structure PreviewControl where
  Settings : TerminalSettings
  /-- Number of calls of `UpdateSettings()`. -/
  UpdateSettingsCalls : Nat
  /-- Number of handlers registered on `Initialized`. -/
  InitializedHandlers : Nat
  deriving DecidableEq, Repr

/-- The fields of the `Profiles` page. -/
structure Profiles where
  _Profile : ProfileViewModel
  _State : ProfilePageNavigationState
  _previewControl : PreviewControl
  /-- Whether the revoker holds a subscription to `_Profile.PropertyChanged`. -/
  _ViewModelChangedRevoker : Bool
  /-- Whether the revoker holds a subscription to
  `_Profile.DefaultAppearance().PropertyChanged`. -/
  _AppearanceViewModelChangedRevoker : Bool
  /-- The value of `ProfilesPivot().SelectedIndex()`. -/
  SelectedIndex : Int
  /-- The value of `StartingDirectoryUseParentCheckbox().IsChecked()`. -/
  UseParentIsChecked : Option Bool
  /-- Names raised on the page's `_PropertyChangedHandlers`, oldest first. -/
  raised : List String
  deriving DecidableEq, Repr

/-- The call `_PropertyChangedHandlers(*this, PropertyChangedEventArgs{ name })`. -/
def _PropertyChangedHandlers (name : String) (p : Profiles) : Profiles :=
  { p with raised := p.raised ++ [name] }

/-- The two statements `_previewControl.Settings(_Profile.TermSettings());`
and `_previewControl.UpdateSettings();`. -/
def refreshPreview (p : Profiles) : Profiles :=
  let p := { p with _previewControl := { p._previewControl with Settings := p._Profile.TermSettings } }
  { p with _previewControl :=
      { p._previewControl with UpdateSettingsCalls := p._previewControl.UpdateSettingsCalls + 1 } }

/-- The handler of lines 59-79, subscribed to `_Profile.PropertyChanged`. -/
def viewModelChanged (settingName : String) (p : Profiles) : Profiles :=
  let p :=
    if settingName == "AntialiasingMode" then
      _PropertyChangedHandlers "CurrentAntiAliasingMode" p
    else if settingName == "CloseOnExit" then
      _PropertyChangedHandlers "CurrentCloseOnExitMode" p
    else if settingName == "BellStyle" then
      _PropertyChangedHandlers "IsBellStyleFlagSet" p
    else if settingName == "ScrollState" then
      _PropertyChangedHandlers "CurrentScrollState" p
    else
      p
  refreshPreview p

/-- The handler of lines 83-86, subscribed to the default appearance. -/
def appearanceViewModelChanged (p : Profiles) : Profiles :=
  refreshPreview p

/-- The profile view model raises `PropertyChanged` for `propertyName`: the
handler runs when the page holds its subscription. -/
def ProfilePropertyChanged (propertyName : String) (p : Profiles) : Profiles :=
  if p._ViewModelChangedRevoker then viewModelChanged propertyName p else p

/-- Lines 39-98. -/
def OnNavigatedTo (e_Parameter : ProfilePageNavigationState) (st : ProfileViewModelStatics)
    (p : Profiles) : ProfileViewModelStatics × Profiles :=
  let state := e_Parameter
  let p := { p with _Profile := state.Profile }
  let st := if !st.CompleteFontList || !st.MonospaceFontList then UpdateFontList st else st
  let p :=
    if p._Profile.StartingDirectory.isEmpty then { p with UseParentIsChecked := some true } else p
  let p := { p with _ViewModelChangedRevoker := true }
  let p := { p with _AppearanceViewModelChangedRevoker := true }
  let p := { p with SelectedIndex := static_cast_int st.LastActivePivot }
  let p :=
    { p with _previewControl := { p._previewControl with Settings := p._State.Profile.TermSettings } }
  let p :=
    { p with _previewControl :=
        { p._previewControl with InitializedHandlers := p._previewControl.InitializedHandlers + 1 } }
  (st, p)

/-- Lines 100-104. -/
def OnNavigatedFrom (p : Profiles) : Profiles :=
  let p := { p with _ViewModelChangedRevoker := false }
  { p with _AppearanceViewModelChangedRevoker := false }

/-- Lines 121-131; `file` is what `co_await OpenImagePicker(parentHwnd)` returns. -/
def Icon_Click (file : String) (p : Profiles) : Profiles :=
  if !file.isEmpty then { p with _Profile := p._Profile.setIcon file } else p

/-- Lines 133-161; `path` is what `co_await OpenFilePicker(...)` returns. -/
def Commandline_Click (path : String) (p : Profiles) : Profiles :=
  if !path.isEmpty then { p with _Profile := p._Profile.setCommandline path } else p

/-- Lines 163-186; `folder` is what `co_await OpenFilePicker(...)` returns. -/
def StartingDirectory_Click (folder : String) (p : Profiles) : Profiles :=
  if !folder.isEmpty then { p with _Profile := p._Profile.setStartingDirectory folder } else p

/-- Lines 188-192. -/
def Pivot_SelectionChanged (st : ProfileViewModelStatics) (p : Profiles) :
    ProfileViewModelStatics :=
  { st with LastActivePivot := static_cast_ProfilesPivots p.SelectedIndex }

/-- The picker handler that belongs to a profile property. -/
def pickerHandler : ProfileProperty → String → Profiles → Profiles
  | ProfileProperty.Icon => Icon_Click
  | ProfileProperty.Commandline => Commandline_Click
  | ProfileProperty.StartingDirectory => StartingDirectory_Click

/-- The mirroring of view-model properties into page properties as the
specification lists it: the view-model property and the page property raised
for it. -/
def mirrorTable : List (String × String) :=
  [("AntialiasingMode", "CurrentAntiAliasingMode"),
   ("CloseOnExit", "CurrentCloseOnExitMode"),
   ("BellStyle", "IsBellStyleFlagSet"),
   ("ScrollState", "CurrentScrollState")]

/-- The page notifications the specification asks for when the view model
reports a change of `propertyName`: the one the table gives, none for a name
that is not in the table. -/
def mirrored (propertyName : String) : List String :=
  match mirrorTable.lookup propertyName with
  | some pageProperty => [pageProperty]
  | none => []

/-- A profile with a command line and no starting directory. -/
def sampleProfile : ProfileViewModel :=
  { Icon := ""
    Commandline := "cmd.exe"
    StartingDirectory := ""
    TermSettings := ⟨7⟩
    written := [] }

/-- A page before its first navigation. -/
def samplePage : Profiles :=
  { _Profile := sampleProfile
    _State := ⟨sampleProfile⟩
    _previewControl := ⟨⟨0⟩, 0, 0⟩
    _ViewModelChangedRevoker := false
    _AppearanceViewModelChangedRevoker := false
    SelectedIndex := 0
    UseParentIsChecked := none
    raised := [] }

end SettingsEditor

/-! ## The About dialog: properties -/

namespace TerminalApp

theorem days_one_pos : 0 < days 1 := by decide

@[simp] theorem setPending_fields (v : String) (d : AboutDialog) :
    (_SetPendingUpdateVersion v d)._pendingUpdateVersion = v ∧
    (_SetPendingUpdateVersion v d)._lastUpdateCheck = d._lastUpdateCheck ∧
    (_SetPendingUpdateVersion v d)._CheckingForUpdates = d._CheckingForUpdates ∧
    (_SetPendingUpdateVersion v d).raised = d.raised ++ ["PendingUpdateVersion", "UpdatesAvailable"] ∧
    (_SetPendingUpdateVersion v d).storeQueries = d.storeQueries := by
  simp [_SetPendingUpdateVersion, _PropertyChangedHandlers]

@[simp] theorem setChecking_fields (env : Environment) (b : Bool) (d : AboutDialog) :
    (setCheckingForUpdates env b d)._pendingUpdateVersion = d._pendingUpdateVersion ∧
    (setCheckingForUpdates env b d)._lastUpdateCheck = d._lastUpdateCheck ∧
    (setCheckingForUpdates env b d)._CheckingForUpdates = b ∧
    (setCheckingForUpdates env b d).storeQueries = d.storeQueries := by
  simp [setCheckingForUpdates]

/-- The `try` block never writes the time of the last check. -/
theorem tryBlock_lastUpdateCheck (env : Environment) (d : AboutDialog) :
    (tryBlock env d).2._lastUpdateCheck = d._lastUpdateCheck := by
  unfold tryBlock
  split
  · simp
  · split
    · simp
    · split <;> simp

/-- A call that is throttled returns the dialog as it found it. -/
theorem queueUpdateCheck_of_throttled (env : Environment) (d : AboutDialog)
    (h : env.now - d._lastUpdateCheck < days 1) :
    _QueueUpdateCheck env d = (Completion.normal, d) := by
  simp [_QueueUpdateCheck, h]

/-- A call that is not throttled records the time it read. -/
theorem queueUpdateCheck_lastUpdateCheck (env : Environment) (d : AboutDialog)
    (h : ¬ env.now - d._lastUpdateCheck < days 1) :
    (_QueueUpdateCheck env d).2._lastUpdateCheck = env.now := by
  unfold _QueueUpdateCheck
  simp only [h, if_false]
  split
  · rfl
  · simp only [catchAll]
    rw [(setChecking_fields _ _ _).2.1, tryBlock_lastUpdateCheck,
      (setChecking_fields _ _ _).2.1, (setPending_fields _ _).2.1]

/-- The time of the last check never moves backwards. -/
theorem queueUpdateCheck_lastUpdateCheck_mono (env : Environment) (d : AboutDialog) :
    d._lastUpdateCheck ≤ (_QueueUpdateCheck env d).2._lastUpdateCheck := by
  by_cases h : env.now - d._lastUpdateCheck < days 1
  · rw [queueUpdateCheck_of_throttled env d h]
  · rw [queueUpdateCheck_lastUpdateCheck env d h]
    have := days_one_pos
    omega

theorem queueAll_lastUpdateCheck_mono (envs : List Environment) (d : AboutDialog) :
    d._lastUpdateCheck ≤ (queueAll envs d)._lastUpdateCheck := by
  induction envs generalizing d with
  | nil => exact le_refl _
  | cons env rest ih =>
    exact le_trans (queueUpdateCheck_lastUpdateCheck_mono env d) (ih _)

/-- With no statement of the `try` block throwing, the block is `tryBlock`. -/
theorem tryBlockThrowing_noFaults (env : Environment) (d : AboutDialog) :
    tryBlockThrowing noFaults env d = tryBlock env d := by
  unfold tryBlockThrowing tryBlock _SetPendingUpdateVersionThrowing noFaults
  simp only [Bool.false_eq_true, if_false]
  rfl

/-- With no statement of the `try` block throwing, the coroutine is
`_QueueUpdateCheck`. -/
theorem queueUpdateCheckThrowing_noFaults (env : Environment) (d : AboutDialog) :
    _QueueUpdateCheckThrowing noFaults env d = _QueueUpdateCheck env d := by
  unfold _QueueUpdateCheckThrowing _QueueUpdateCheck
  simp only [tryBlockThrowing_noFaults]

/-- C1: for every dialog, `UpdatesAvailable()` is true exactly when the string
`PendingUpdateVersion()` returns is not the empty string. -/
theorem updatesAvailable_iff_pending_nonempty (d : AboutDialog) :
    UpdatesAvailable d = true ↔ PendingUpdateVersion d ≠ "" := by
  unfold UpdatesAvailable PendingUpdateVersion
  rw [Ne, ← String.isEmpty_iff]
  cases d._pendingUpdateVersion.isEmpty <;> simp

/-- C2: a call of `_QueueUpdateCheck` made less than one day after the recorded
last check returns the dialog exactly as it was (timestamp, pending version,
flag, the list of raised notifications and the count of store queries); and
once a call at time `env.now` has passed the throttle, then after any further
calls whatsoever a call at a time before `env.now + 1 day` again changes
nothing. -/
theorem queueUpdateCheck_throttle (env : Environment) (d : AboutDialog) :
    (env.now - d._lastUpdateCheck < days 1 →
      _QueueUpdateCheck env d = (Completion.normal, d)) ∧
    (¬ env.now - d._lastUpdateCheck < days 1 →
      ∀ (later : List Environment) (env' : Environment), env'.now < env.now + days 1 →
        _QueueUpdateCheck env' (queueAll later (_QueueUpdateCheck env d).2) =
          (Completion.normal, queueAll later (_QueueUpdateCheck env d).2)) := by
  refine ⟨queueUpdateCheck_of_throttled env d, ?_⟩
  intro h later env' hlt
  apply queueUpdateCheck_of_throttled
  have h1 := queueUpdateCheck_lastUpdateCheck env d h
  have h2 := queueAll_lastUpdateCheck_mono later (_QueueUpdateCheck env d).2
  omega

theorem queueUpdateCheck_throttle_witness :
    _QueueUpdateCheck (releaseCall 17900000000000001 (Except.ok [])) checkedDialog =
        (Completion.normal, checkedDialog) ∧
      _QueueUpdateCheck (releaseCall 17900863999999999 (Except.ok []))
          (queueAll [devCall 17000000000000000]
            (_QueueUpdateCheck (releaseCall 17900000000000000 (Except.ok [])) freshDialog).2) =
        (Completion.normal,
          queueAll [devCall 17000000000000000]
            (_QueueUpdateCheck (releaseCall 17900000000000000 (Except.ok [])) freshDialog).2) :=
  ⟨(queueUpdateCheck_throttle (releaseCall 17900000000000001 (Except.ok [])) checkedDialog).1
      (by decide),
    (queueUpdateCheck_throttle (releaseCall 17900000000000000 (Except.ok [])) freshDialog).2
      (by decide) [devCall 17000000000000000] (releaseCall 17900863999999999 (Except.ok []))
      (by decide)⟩

/-- C3, as the claim states it, fails: outside a package, a call one day or more
after the last check overwrites the time of the last check. -/
theorem unpackaged_call_moves_timestamp :
    (unpackagedCall 17900000000000000).IsPackaged = false ∧
      freshDialog._lastUpdateCheck = 0 ∧
      (_QueueUpdateCheck (unpackagedCall 17900000000000000) freshDialog).2._lastUpdateCheck =
        17900000000000000 ∧
      (_QueueUpdateCheck (unpackagedCall 17900000000000000) freshDialog).2 ≠ freshDialog := by
  decide

/-- C3, amended: when `IsPackaged()` is false, `_QueueUpdateCheck` completes,
keeps the pending update version and the checking-for-updates flag, raises no
notification and makes no store query; the time of the last check keeps its
value when the call is throttled and becomes the current time otherwise. -/
theorem queueUpdateCheck_not_packaged (env : Environment) (d : AboutDialog)
    (h : env.IsPackaged = false) :
    (_QueueUpdateCheck env d).1 = Completion.normal ∧
      (_QueueUpdateCheck env d).2._pendingUpdateVersion = d._pendingUpdateVersion ∧
      (_QueueUpdateCheck env d).2._CheckingForUpdates = d._CheckingForUpdates ∧
      (_QueueUpdateCheck env d).2.raised = d.raised ∧
      (_QueueUpdateCheck env d).2.storeQueries = d.storeQueries ∧
      (_QueueUpdateCheck env d).2._lastUpdateCheck =
        if env.now - d._lastUpdateCheck < days 1 then d._lastUpdateCheck else env.now := by
  unfold _QueueUpdateCheck
  by_cases ht : env.now - d._lastUpdateCheck < days 1
  · simp [ht]
  · simp [ht, h]

theorem queueUpdateCheck_not_packaged_witness :
    (_QueueUpdateCheck (unpackagedCall 17900864000000000) checkedDialog).1 = Completion.normal ∧
      (_QueueUpdateCheck (unpackagedCall 17900864000000000)
        checkedDialog).2._pendingUpdateVersion = checkedDialog._pendingUpdateVersion ∧
      (_QueueUpdateCheck (unpackagedCall 17900864000000000)
        checkedDialog).2._CheckingForUpdates = checkedDialog._CheckingForUpdates ∧
      (_QueueUpdateCheck (unpackagedCall 17900864000000000) checkedDialog).2.raised =
        checkedDialog.raised ∧
      (_QueueUpdateCheck (unpackagedCall 17900864000000000) checkedDialog).2.storeQueries =
        checkedDialog.storeQueries ∧
      (_QueueUpdateCheck (unpackagedCall 17900864000000000) checkedDialog).2._lastUpdateCheck =
        if (unpackagedCall 17900864000000000).now - checkedDialog._lastUpdateCheck < days 1 then
          checkedDialog._lastUpdateCheck
        else (unpackagedCall 17900864000000000).now :=
  queueUpdateCheck_not_packaged (unpackagedCall 17900864000000000) checkedDialog rfl

/-- C7: in a build with `WT_BRANDING_DEV`, every run of `_QueueUpdateCheck` that
passes the throttle and the packaged check completes with the pending update
version "X.Y.Z", `UpdatesAvailable()` true and the checking-for-updates flag
false, whatever the pending version was before. -/
theorem queueUpdateCheck_dev_reports_update (env : Environment) (d : AboutDialog)
    (hdev : env.branding = Branding.Dev)
    (hthrottle : ¬ env.now - d._lastUpdateCheck < days 1)
    (hpackaged : env.IsPackaged = true) :
    (_QueueUpdateCheck env d).1 = Completion.normal ∧
      PendingUpdateVersion (_QueueUpdateCheck env d).2 = "X.Y.Z" ∧
      UpdatesAvailable (_QueueUpdateCheck env d).2 = true ∧
      CheckingForUpdates (_QueueUpdateCheck env d).2 = false := by
  have hrun : _QueueUpdateCheck env d =
      (Completion.normal, setCheckingForUpdates env false
        (_SetPendingUpdateVersion "X.Y.Z" (setCheckingForUpdates env true
          (_SetPendingUpdateVersion "" { d with _lastUpdateCheck := env.now })))) := by
    simp [_QueueUpdateCheck, hthrottle, hpackaged, catchAll, tryBlock, hdev]
  rw [hrun]
  refine ⟨rfl, ?_, ?_, ?_⟩
  · simp [PendingUpdateVersion]
  · simp only [UpdatesAvailable, setChecking_fields, setPending_fields]
    decide
  · simp [CheckingForUpdates]

theorem queueUpdateCheck_dev_reports_update_witness :
    (_QueueUpdateCheck (devCall 17900864000000000) checkedDialog).1 = Completion.normal ∧
      PendingUpdateVersion (_QueueUpdateCheck (devCall 17900864000000000) checkedDialog).2 =
        "X.Y.Z" ∧
      UpdatesAvailable (_QueueUpdateCheck (devCall 17900864000000000) checkedDialog).2 = true ∧
      CheckingForUpdates (_QueueUpdateCheck (devCall 17900864000000000) checkedDialog).2 =
        false :=
  queueUpdateCheck_dev_reports_update (devCall 17900864000000000) checkedDialog rfl
    (by decide) rfl

/-- C8: in a build without `WT_BRANDING_DEV`, in every run of `_QueueUpdateCheck`
that passes the throttle and the packaged check and whose store query returns a
list of updates, the run completes with the checking-for-updates flag false;
when the list has a first entry the pending update version becomes the decimal
numbers Major, Minor and Revision of that entry joined by dots, and when the
list is empty it becomes the empty string, whatever it was before. -/
theorem queueUpdateCheck_release_version (env : Environment) (d : AboutDialog)
    (updates : List PackageVersion)
    (hrelease : env.branding = Branding.Release)
    (hthrottle : ¬ env.now - d._lastUpdateCheck < days 1)
    (hpackaged : env.IsPackaged = true)
    (hquery : env.storeQuery = Except.ok updates) :
    (_QueueUpdateCheck env d).1 = Completion.normal ∧
      CheckingForUpdates (_QueueUpdateCheck env d).2 = false ∧
      (∀ first rest, updates = first :: rest →
        PendingUpdateVersion (_QueueUpdateCheck env d).2 =
          Nat.repr first.Major ++ "." ++ Nat.repr first.Minor ++ "." ++
            Nat.repr first.Revision) ∧
      (updates = [] → PendingUpdateVersion (_QueueUpdateCheck env d).2 = "") := by
  have hrun : _QueueUpdateCheck env d =
      (Completion.normal, setCheckingForUpdates env false
        (tryBlock env (setCheckingForUpdates env true
          (_SetPendingUpdateVersion "" { d with _lastUpdateCheck := env.now }))).2) := by
    simp [_QueueUpdateCheck, hthrottle, hpackaged, catchAll]
  rw [hrun]
  refine ⟨rfl, by simp [CheckingForUpdates], ?_, ?_⟩
  · intro first rest hlist
    subst hlist
    simp [PendingUpdateVersion, tryBlock, hrelease, hquery, fmt_format]
  · intro hlist
    subst hlist
    simp [PendingUpdateVersion, tryBlock, hrelease, hquery]

theorem queueUpdateCheck_release_version_witness :
    (PendingUpdateVersion
        (_QueueUpdateCheck
          (releaseCall 17900864000000000 (Except.ok [⟨1, 22, 10352, 0⟩, ⟨1, 23, 0, 5⟩]))
          checkedDialog).2 =
        Nat.repr 1 ++ "." ++ Nat.repr 22 ++ "." ++ Nat.repr 0 ∧
      Nat.repr 1 ++ "." ++ Nat.repr 22 ++ "." ++ Nat.repr 0 = "1.22.0") ∧
      PendingUpdateVersion
        (_QueueUpdateCheck (releaseCall 17900864000000000 (Except.ok [])) checkedDialog).2 =
        "" :=
  ⟨⟨(queueUpdateCheck_release_version
        (releaseCall 17900864000000000 (Except.ok [⟨1, 22, 10352, 0⟩, ⟨1, 23, 0, 5⟩]))
        checkedDialog [⟨1, 22, 10352, 0⟩, ⟨1, 23, 0, 5⟩] rfl (by decide) rfl rfl).2.2.1
        ⟨1, 22, 10352, 0⟩ [⟨1, 23, 0, 5⟩] rfl, by decide⟩,
    (queueUpdateCheck_release_version (releaseCall 17900864000000000 (Except.ok []))
      checkedDialog [] rfl (by decide) rfl rfl).2.2.2 rfl⟩

/-- C9: for every string `v`, `_SetPendingUpdateVersion(v)` makes
`PendingUpdateVersion()` return `v`, raises exactly the two notifications
"PendingUpdateVersion" and "UpdatesAvailable", in that order, and changes
neither the time of the last check nor the checking-for-updates flag (nor the
count of store queries). -/
theorem setPendingUpdateVersion_effect (v : String) (d : AboutDialog) :
    PendingUpdateVersion (_SetPendingUpdateVersion v d) = v ∧
      (_SetPendingUpdateVersion v d).raised =
        d.raised ++ ["PendingUpdateVersion", "UpdatesAvailable"] ∧
      (_SetPendingUpdateVersion v d)._lastUpdateCheck = d._lastUpdateCheck ∧
      CheckingForUpdates (_SetPendingUpdateVersion v d) = CheckingForUpdates d ∧
      (_SetPendingUpdateVersion v d).storeQueries = d.storeQueries := by
  simp [PendingUpdateVersion, CheckingForUpdates, _SetPendingUpdateVersion,
    _PropertyChangedHandlers]

end TerminalApp

/-! ## The Profiles page: properties -/

namespace SettingsEditor

/-- A name outside the table has no page property. -/
theorem mirrored_eq_nil (name : String) (h1 : name ≠ "AntialiasingMode")
    (h2 : name ≠ "CloseOnExit") (h3 : name ≠ "BellStyle") (h4 : name ≠ "ScrollState") :
    mirrored name = [] := by
  have b1 : (name == "AntialiasingMode") = false := beq_eq_false_iff_ne.2 h1
  have b2 : (name == "CloseOnExit") = false := beq_eq_false_iff_ne.2 h2
  have b3 : (name == "BellStyle") = false := beq_eq_false_iff_ne.2 h3
  have b4 : (name == "ScrollState") = false := beq_eq_false_iff_ne.2 h4
  simp [mirrored, mirrorTable, List.lookup, b1, b2, b3, b4]

/-- The notifications the handler of lines 59-79 raises are those of the
table. -/
theorem viewModelChanged_raised (name : String) (p : Profiles) :
    (viewModelChanged name p).raised = p.raised ++ mirrored name := by
  unfold viewModelChanged refreshPreview
  by_cases h1 : name = "AntialiasingMode"
  · subst h1; simp [_PropertyChangedHandlers]; decide
  by_cases h2 : name = "CloseOnExit"
  · subst h2; simp [_PropertyChangedHandlers]; decide
  by_cases h3 : name = "BellStyle"
  · subst h3; simp [_PropertyChangedHandlers]; decide
  by_cases h4 : name = "ScrollState"
  · subst h4; simp [_PropertyChangedHandlers]; decide
  simp [h1, h2, h3, h4, mirrored_eq_nil name h1 h2 h3 h4]

/-- C5: for each of the three picker handlers and every string the picker
returns: when the string is not empty, the handler's profile property holds
exactly that string afterwards, the only setter call made is that one, and the
other two properties keep their values; when the string is empty, the handler
changes nothing. -/
theorem pickerHandler_writes (k : ProfileProperty) (path : String) (p : Profiles) :
    (path ≠ "" →
      (pickerHandler k path p)._Profile.get k = path ∧
        (pickerHandler k path p)._Profile.written = p._Profile.written ++ [(k, path)] ∧
        ∀ k2, k2 ≠ k → (pickerHandler k path p)._Profile.get k2 = p._Profile.get k2) ∧
      (path = "" → pickerHandler k path p = p) := by
  constructor
  · intro hne
    have hfalse : path.isEmpty = false := by
      cases h : path.isEmpty
      · rfl
      · exact absurd ((String.isEmpty_iff path).1 h) hne
    refine ⟨?_, ?_, ?_⟩
    · cases k <;>
        simp [pickerHandler, Icon_Click, Commandline_Click, StartingDirectory_Click, hfalse,
          ProfileViewModel.get, ProfileViewModel.setIcon, ProfileViewModel.setCommandline,
          ProfileViewModel.setStartingDirectory]
    · cases k <;>
        simp [pickerHandler, Icon_Click, Commandline_Click, StartingDirectory_Click, hfalse,
          ProfileViewModel.setIcon, ProfileViewModel.setCommandline,
          ProfileViewModel.setStartingDirectory]
    · intro k2 hk
      cases k <;> cases k2 <;>
        first
        | exact absurd rfl hk
        | simp [pickerHandler, Icon_Click, Commandline_Click, StartingDirectory_Click, hfalse,
            ProfileViewModel.get, ProfileViewModel.setIcon, ProfileViewModel.setCommandline,
            ProfileViewModel.setStartingDirectory]
  · intro he
    subst he
    cases k <;> rfl

theorem pickerHandler_writes_witness :
    ((pickerHandler ProfileProperty.StartingDirectory "C:/Users" samplePage)._Profile.get
          ProfileProperty.StartingDirectory = "C:/Users" ∧
        (pickerHandler ProfileProperty.StartingDirectory "C:/Users" samplePage)._Profile.written =
          samplePage._Profile.written ++ [(ProfileProperty.StartingDirectory, "C:/Users")] ∧
        ∀ k2, k2 ≠ ProfileProperty.StartingDirectory →
          (pickerHandler ProfileProperty.StartingDirectory "C:/Users" samplePage)._Profile.get k2 =
            samplePage._Profile.get k2) ∧
      pickerHandler ProfileProperty.Icon "" samplePage = samplePage :=
  ⟨(pickerHandler_writes ProfileProperty.StartingDirectory "C:/Users" samplePage).1 (by decide),
    (pickerHandler_writes ProfileProperty.Icon "" samplePage).2 rfl⟩

/-- C6: after `OnNavigatedTo`, when the profile view model reports a change of
any property name, the page raises exactly the notifications of the table:
"CurrentAntiAliasingMode" for "AntialiasingMode", "CurrentCloseOnExitMode" for
"CloseOnExit", "IsBellStyleFlagSet" for "BellStyle", "CurrentScrollState" for
"ScrollState", and nothing for any other name; and for every name the preview
control receives the profile's current `TermSettings()` and one more call of
`UpdateSettings()`. -/
theorem propertyChanged_mirrored (e : ProfilePageNavigationState) (st : ProfileViewModelStatics)
    (p : Profiles) (name : String) :
    ((ProfilePropertyChanged name (OnNavigatedTo e st p).2).raised =
        (OnNavigatedTo e st p).2.raised ++ mirrored name ∧
      (ProfilePropertyChanged name (OnNavigatedTo e st p).2)._previewControl.Settings =
        (OnNavigatedTo e st p).2._Profile.TermSettings ∧
      (ProfilePropertyChanged name (OnNavigatedTo e st p).2)._previewControl.UpdateSettingsCalls =
        (OnNavigatedTo e st p).2._previewControl.UpdateSettingsCalls + 1) ∧
      mirrored "AntialiasingMode" = ["CurrentAntiAliasingMode"] ∧
      mirrored "CloseOnExit" = ["CurrentCloseOnExitMode"] ∧
      mirrored "BellStyle" = ["IsBellStyleFlagSet"] ∧
      mirrored "ScrollState" = ["CurrentScrollState"] ∧
      (name ∉ ["AntialiasingMode", "CloseOnExit", "BellStyle", "ScrollState"] →
        mirrored name = []) := by
  have hsub : (OnNavigatedTo e st p).2._ViewModelChangedRevoker = true := by
    unfold OnNavigatedTo
    simp
  refine ⟨⟨?_, ?_, ?_⟩, by decide, by decide, by decide, by decide, ?_⟩
  · unfold ProfilePropertyChanged
    rw [if_pos hsub]
    exact viewModelChanged_raised name _
  · unfold ProfilePropertyChanged
    rw [if_pos hsub]
    unfold viewModelChanged refreshPreview
    split_ifs <;> simp [_PropertyChangedHandlers]
  · unfold ProfilePropertyChanged
    rw [if_pos hsub]
    unfold viewModelChanged refreshPreview
    split_ifs <;> simp [_PropertyChangedHandlers]
  · intro hnot
    simp only [List.mem_cons, List.mem_singleton, List.not_mem_nil, or_false, not_or] at hnot
    obtain ⟨h1, h2, h3, h4⟩ := hnot
    exact mirrored_eq_nil name h1 h2 h3 h4

theorem propertyChanged_mirrored_witness :
    mirrored "FontFace" = [] ∧
      (ProfilePropertyChanged "FontFace"
        (OnNavigatedTo ⟨sampleProfile⟩ ⟨⟨1⟩, true, true⟩ samplePage).2).raised =
        (OnNavigatedTo ⟨sampleProfile⟩ ⟨⟨1⟩, true, true⟩ samplePage).2.raised ++
          mirrored "FontFace" :=
  ⟨(propertyChanged_mirrored ⟨sampleProfile⟩ ⟨⟨1⟩, true, true⟩ samplePage "FontFace").2.2.2.2.2
      (by decide),
    (propertyChanged_mirrored ⟨sampleProfile⟩ ⟨⟨1⟩, true, true⟩ samplePage "FontFace").1.1⟩

/-- C10: for every selected index `i` (so in particular for every valid value of
`ProfilesPivots`), `Pivot_SelectionChanged` stores the index, converted to the
enumeration, as `ProfileViewModel::LastActivePivot`; a following `OnNavigatedTo`
on any page sets the pivot's `SelectedIndex` to `i` and leaves the stored pivot
in place; and converting an index to the enumeration and back gives the
index. -/
theorem lastActivePivot_round_trip (i : Int) (st : ProfileViewModelStatics) (p q : Profiles)
    (e : ProfilePageNavigationState) :
    (Pivot_SelectionChanged st { p with SelectedIndex := i }).LastActivePivot =
        static_cast_ProfilesPivots i ∧
      (OnNavigatedTo e (Pivot_SelectionChanged st { p with SelectedIndex := i }) q).2.SelectedIndex =
        i ∧
      (OnNavigatedTo e (Pivot_SelectionChanged st { p with SelectedIndex := i }) q).1.LastActivePivot =
        static_cast_ProfilesPivots i ∧
      static_cast_int (static_cast_ProfilesPivots i) = i := by
  refine ⟨rfl, ?_, ?_, rfl⟩
  · unfold OnNavigatedTo
    simp only []
    split_ifs <;> rfl
  · unfold OnNavigatedTo
    simp only []
    split_ifs <;> rfl

end SettingsEditor
